import Mathlib

/-!
Shallow embedding of the serverless image-metadata service in `src/app.py`.

The program is an AWS Lambda handler with three functions:

* `lambda_handler` routes an inbound event: dispatch to `handle_s3_event`
  when the envelope has a `Records` key, else to `handle_api_gateway_event`
  when it has an `httpMethod` key, else answer 400.
* `handle_s3_event` decodes the object key of the first record with
  `urllib.parse.unquote_plus`, issues `head_object`, builds an item and
  `put_item`s it into the DynamoDB table; its `except` clause re-raises,
  so every failure propagates (modelled as `Except.error`).
* `handle_api_gateway_event` reads the `imageName` path parameter, does
  `get_item`, and answers 200 / 404; its `except` clause converts every
  failure into a 500 response (so the Lean function is total).

The external world (S3 store, DynamoDB table, their reachability) is
explicit state; every call to a collaborator is also recorded in an
access trace, so that frame claims ("the router never touches the store
or the table") and ordering claims ("the key is decoded before the
fetch") are statable.  Machine-level detail that is invisible to the
program (DynamoDB wire format, UTF-8 bytes above ASCII) is modelled at
the granularity the program observes: DynamoDB numbers are `Nat` and the
`int(item['size'])` normalization is the rendering of that `Nat` as the
JSON integer `Json.num`; `unquote_plus` is modelled on its ASCII
fragment, the one exercised by store-encoded object keys.
-/

namespace AppPy

/-- JSON values, modelling the result of `json.dumps` structurally.
`json.dumps` of a Python string gives `Json.str`, of an `int` gives
`Json.num`, of a `dict` gives `Json.obj` with insertion order kept. -/
inductive Json : Type where
  | str : String → Json
  | num : Int → Json
  | obj : List (String × Json) → Json

/-- A naive Python `datetime` at second precision, as boto3 reports
`LastModified`; `isoformat` renders it the way `datetime.isoformat` does
for such values. -/
structure PyDateTime where
  year : Nat
  month : Nat
  day : Nat
  hour : Nat
  minute : Nat
  second : Nat
deriving DecidableEq

/-- Zero-pad a numeral to two digits, as `datetime.isoformat` does. -/
def pad2 (n : Nat) : String :=
  if n < 10 then "0" ++ toString n else toString n

/-- Zero-pad a numeral to four digits, as `datetime.isoformat` does. -/
def pad4 (n : Nat) : String :=
  if n < 10 then "000" ++ toString n
  else if n < 100 then "00" ++ toString n
  else if n < 1000 then "0" ++ toString n
  else toString n

/-- Python `datetime.isoformat()` for a naive datetime with zero
microseconds: `YYYY-MM-DDTHH:MM:SS`. -/
def PyDateTime.isoformat (d : PyDateTime) : String :=
  pad4 d.year ++ "-" ++ pad2 d.month ++ "-" ++ pad2 d.day ++ "T" ++
    pad2 d.hour ++ ":" ++ pad2 d.minute ++ ":" ++ pad2 d.second

/-- The metadata `s3_client.head_object` returns for an object:
`ContentLength`, `ContentType`, `LastModified`. -/
structure S3Meta where
  contentLength : Nat
  contentType : String
  lastModified : PyDateTime
deriving DecidableEq

/-- One entry of the `Records` list of an S3 notification, keeping the
two fields the program reads: `record['s3']['bucket']['name']` and
`record['s3']['object']['key']` (the latter still store-encoded). -/
structure S3Record where
  bucketName : String
  objectKey : String
deriving DecidableEq

/-- The inbound Lambda event envelope, with the three fields the program
inspects; `none` models the key being absent from the Python dict (for
`pathParameters`, also its being `None`, which the code treats the same
way: any access raises, and the query handler's catch-all answers 500). -/
structure Event where
  records : Option (List S3Record) := none
  httpMethod : Option String := none
  pathParameters : Option (List (String × String)) := none

/-- The item `handle_s3_event` writes to the table.  DynamoDB stores
`size` as a number (returned by boto3 as `Decimal`); the program only
ever puts integral values there, so the model carries it as `Nat` and
the query-side `int(item['size'])` normalization becomes the rendering
of this `Nat` as a plain JSON integer. -/
structure Item where
  imageName : String
  size : Nat
  contentType : String
  lastModified : String
deriving DecidableEq

/-- First-match lookup in an association list (models Python dict
access `d[k]` returning the value or signalling absence). -/
def lookupAssoc {α : Type} (l : List (String × α)) (k : String) : Option α :=
  match l with
  | [] => none
  | (k', v) :: rest => if k' = k then some v else lookupAssoc rest k

/-- Lookup of an object's metadata in the store by bucket and key. -/
def lookupStore (s : List ((String × String) × S3Meta)) (b k : String) :
    Option S3Meta :=
  match s with
  | [] => none
  | ((b', k'), m) :: rest =>
      if b' = b ∧ k' = k then some m else lookupStore rest b k

/-- The state of the two external collaborators plus fault switches that
let a theorem quantify over the failure modes the spec names (store
unreachable, table write failure, table read failure). -/
structure World where
  store : List ((String × String) × S3Meta)
  storeReachable : Bool := true
  table : List (String × Item)
  tableWriteOk : Bool := true
  tableReadOk : Bool := true

/-- The failures an invocation can raise (Python exceptions); the
constructor only matters up to it being an error. -/
inductive Err : Type where
  | keyError
  | indexError
  | storeUnreachable
  | objectMissing
  | writeError
  | readError
deriving DecidableEq

/-- One call to an external collaborator, for the access trace. -/
inductive Access : Type where
  | headObject (bucket key : String)
  | putItem (item : Item)
  | getItem (key : String)
deriving DecidableEq

/-- The response envelope `{statusCode, body?, headers?}`; `body` is the
structural value of the JSON text the program produces. -/
structure Response where
  statusCode : Nat
  body : Option Json := none
  headers : Option (List (String × String)) := none

/-- `s3_client.head_object(Bucket=b, Key=k)`: raises when the store is
unreachable or the object is absent, else returns the metadata. -/
def head_object (w : World) (b k : String) : Except Err S3Meta :=
  if w.storeReachable then
    match lookupStore w.store b k with
    | some m => Except.ok m
    | none => Except.error Err.objectMissing
  else Except.error Err.storeUnreachable

/-- `table.put_item(Item=item)`: unconditional upsert keyed by
`imageName` (the new binding shadows any previous one), or a raised
error when the write fails. -/
def put_item (w : World) (item : Item) : Except Err World :=
  if w.tableWriteOk then
    Except.ok { w with table := (item.imageName, item) :: w.table }
  else Except.error Err.writeError

/-- `table.get_item(Key=...)`: the stored item, an explicit not-found,
or a raised error when the read fails. -/
def get_item (w : World) (k : String) : Except Err (Option Item) :=
  if w.tableReadOk then Except.ok (lookupAssoc w.table k)
  else Except.error Err.readError

/-- Value of a hexadecimal digit character, `none` otherwise (as
`urllib.parse.unquote` classifies the two characters after `%`). -/
def hexDigitVal (c : Char) : Option Nat :=
  if '0' ≤ c ∧ c ≤ '9' then some (c.toNat - 48)
  else if 'a' ≤ c ∧ c ≤ 'f' then some (c.toNat - 87)
  else if 'A' ≤ c ∧ c ≤ 'F' then some (c.toNat - 55)
  else none

/-- Core of `urllib.parse.unquote_plus` on the ASCII fragment: `+`
becomes a space, `%` followed by two hex digits becomes the denoted
character, an ill-formed escape is kept literally. -/
def unquotePlusChars : List Char → List Char
  | [] => []
  | '+' :: rest => ' ' :: unquotePlusChars rest
  | '%' :: a :: b :: rest =>
      match hexDigitVal a, hexDigitVal b with
      | some ha, some hb => Char.ofNat (16 * ha + hb) :: unquotePlusChars rest
      | _, _ => '%' :: unquotePlusChars (a :: b :: rest)
  | c :: rest => c :: unquotePlusChars rest

/-- `urllib.parse.unquote_plus` as the program calls it on object keys. -/
def unquote_plus (s : String) : String :=
  String.mk (unquotePlusChars s.data)

/-- Render an item as `json.dumps` renders the Python dict built in
`handle_s3_event` (insertion order; `size` already normalized to an
integer by `int(item['size'])`). -/
def itemToJson (item : Item) : Json :=
  Json.obj [("imageName", Json.str item.imageName),
            ("size", Json.num (Int.ofNat item.size)),
            ("contentType", Json.str item.contentType),
            ("lastModified", Json.str item.lastModified)]

/-- The Python dict literal `item = {'imageName': ..., 'size': ...,
'contentType': ..., 'lastModified': ...isoformat()}` built by
`handle_s3_event` from the decoded key and the fetched metadata. -/
def mkItem (key : String) (meta : S3Meta) : Item :=
  { imageName := key
    size := meta.contentLength
    contentType := meta.contentType
    lastModified := meta.lastModified.isoformat }

/-- `handle_s3_event`: decode the first record's key, `head_object`,
build the item, `put_item`, answer `{'statusCode': 200}`.  The `except`
clause re-raises, so every failure (including the `KeyError` of a
missing `Records` key and the `IndexError` of an empty list) is an
`Except.error` of the invocation.  The second component is the trace of
collaborator calls. -/
def handle_s3_event (w : World) (event : Event) :
    Except Err (Response × World) × List Access :=
  match event.records with
  | none => (Except.error Err.keyError, [])
  | some [] => (Except.error Err.indexError, [])
  | some (r :: _) =>
    let object_key := unquote_plus r.objectKey
    match head_object w r.bucketName object_key with
    | Except.error e => (Except.error e, [Access.headObject r.bucketName object_key])
    | Except.ok meta =>
      let item : Item := mkItem object_key meta
      match put_item w item with
      | Except.error e =>
          (Except.error e,
            [Access.headObject r.bucketName object_key, Access.putItem item])
      | Except.ok w' =>
          (Except.ok ({ statusCode := 200 }, w'),
            [Access.headObject r.bucketName object_key, Access.putItem item])

/-- The 500 response the query handler's catch-all produces. -/
def resp500 : Response :=
  { statusCode := 500, body := some (Json.obj [("error", Json.str "Internal server error")]) }

/-- `handle_api_gateway_event`: read the `imageName` path parameter,
`get_item`, answer 200 with the item (size as a plain integer, JSON
content type header) or 404; any raised error — missing/`None`
`pathParameters`, missing `imageName` key, failing table read — is
caught and turned into `resp500`, so the function is total. -/
def handle_api_gateway_event (w : World) (event : Event) :
    Response × List Access :=
  match event.pathParameters with
  | none => (resp500, [])
  | some params =>
    match lookupAssoc params "imageName" with
    | none => (resp500, [])
    | some image_name =>
      match get_item w image_name with
      | Except.error _ => (resp500, [Access.getItem image_name])
      | Except.ok none =>
          ({ statusCode := 404,
             body := some (Json.obj [("error", Json.str "Image not found")]) },
           [Access.getItem image_name])
      | Except.ok (some item) =>
          ({ statusCode := 200,
             body := some (itemToJson item),
             headers := some [("Content-Type", "application/json")] },
           [Access.getItem image_name])

/-- The 400 response of the router's unknown-source branch
(`json.dumps('Unknown event source')` is the JSON string). -/
def resp400 : Response :=
  { statusCode := 400, body := some (Json.str "Unknown event source") }

/-- `lambda_handler`: dispatch on the shape of the envelope —
`'Records' in event`, else `'httpMethod' in event`, else 400. -/
def lambda_handler (w : World) (event : Event) :
    Except Err (Response × World) × List Access :=
  if event.records.isSome then handle_s3_event w event
  else if event.httpMethod.isSome then
    let r := handle_api_gateway_event w event
    (Except.ok (r.1, w), r.2)
  else (Except.ok (resp400, w), [])

/-- An S3 notification envelope with a single record, as S3 delivers. -/
def mkS3Event (b k : String) : Event :=
  { records := some [{ bucketName := b, objectKey := k }] }

/-- An API Gateway lookup envelope for key `k`. -/
def mkLookupEvent (k : String) : Event :=
  { httpMethod := some "GET", pathParameters := some [("imageName", k)] }

/-- A character the store transmits unencoded in notification keys
(unreserved: ALPHA / DIGIT / `-` / `.` / `_` / `~`). -/
def isSafeChar (c : Char) : Bool :=
  (65 ≤ c.toNat && c.toNat ≤ 90) || (97 ≤ c.toNat && c.toNat ≤ 122) ||
  (48 ≤ c.toNat && c.toNat ≤ 57) || c = '-' || c = '.' || c = '_' || c = '~'

/-- Uppercase hexadecimal digit character for a value below 16. -/
def toHexDigit (n : Nat) : Char :=
  if n < 10 then Char.ofNat (48 + n) else Char.ofNat (55 + n)

/-- Encoding of one character: unreserved characters pass through, a
space becomes `+`, anything else becomes a percent escape. -/
def encodeChar (c : Char) : List Char :=
  if isSafeChar c then [c]
  else if c = ' ' then ['+']
  else ['%', toHexDigit (c.toNat / 16), toHexDigit (c.toNat % 16)]

/-- Character-list core of the encoder. -/
def quotePlusChars : List Char → List Char
  | [] => []
  | c :: rest => encodeChar c ++ quotePlusChars rest

/-- Modelled from the spec: the percent/plus encoding the store applies
to object keys in notification envelopes (the encoder itself is not part
of the repository; only its inverse `unquote_plus` is called by the
code).  It is the standard `urllib.parse.quote_plus`-style encoding the
spec's round-trip property refers to: space to `+`, unreserved
characters kept, everything else percent-escaped. -/
def quote_plus (s : String) : String := String.mk (quotePlusChars s.data)

/-! Concrete example data, used by the witness theorems: the spec's own
scenario — bucket `imgs`, stored key `a b.png` delivered encoded as
`a%20b.png`, metadata 1024 bytes of `image/png` last modified
2024-01-01T00:00:00 — plus a second metadata value for the overwrite
scenario and worlds with each fault switch thrown. -/

/-- Example metadata of the first upload. -/
def metaEx : S3Meta :=
  { contentLength := 1024, contentType := "image/png",
    lastModified := { year := 2024, month := 1, day := 1, hour := 0, minute := 0, second := 0 } }

/-- Example metadata of a second, different upload of the same key. -/
def metaEx2 : S3Meta :=
  { contentLength := 2048, contentType := "image/jpeg",
    lastModified := { year := 2025, month := 2, day := 3, hour := 4, minute := 5, second := 6 } }

/-- Example world: the store holds `a b.png` in bucket `imgs`, the
table is empty, everything is up. -/
def wEx : World := { store := [(("imgs", "a b.png"), metaEx)], table := [] }

/-- The table item ingestion of `a%20b.png` writes in `wEx`. -/
def itemEx : Item :=
  { imageName := "a b.png", size := 1024, contentType := "image/png",
    lastModified := "2024-01-01T00:00:00" }

/-- The table item a second ingestion writes once the store reports
`metaEx2`. -/
def itemEx2 : Item :=
  { imageName := "a b.png", size := 2048, contentType := "image/jpeg",
    lastModified := "2025-02-03T04:05:06" }

/-- `wEx` after the ingestion of `a%20b.png`. -/
def wEx' : World := { wEx with table := [("a b.png", itemEx)] }

/-- The store contents after the object is overwritten. -/
def storeEx2 : List ((String × String) × S3Meta) := [(("imgs", "a b.png"), metaEx2)]

/-- `wEx'` after the store overwrite and the second ingestion. -/
def wEx2 : World :=
  { store := storeEx2, table := [("a b.png", itemEx2), ("a b.png", itemEx)] }

/-- A world whose store is unreachable. -/
def wExDown : World := { store := [], storeReachable := false, table := [] }

/-- A world whose table reads fail. -/
def wExReadDown : World := { store := [], table := [], tableReadOk := false }

/-- An envelope whose records list is empty. -/
def evEmptyRecords : Event := { records := some ([] : List S3Record) }

/-- A query envelope with no path parameters at all. -/
def evNoParams : Event := { httpMethod := some "GET" }

/-- A query envelope whose path parameters lack `imageName`. -/
def evEmptyParams : Event := { httpMethod := some "GET", pathParameters := some [] }

/-- An envelope carrying both a records list and an HTTP method. -/
def evBoth : Event :=
  { records := some [{ bucketName := "imgs", objectKey := "a%20b.png" }],
    httpMethod := some "GET" }

end AppPy

namespace AppPy

/-! Helper lemmas about the decoder. -/

/-- The decoder undoes `toHexDigit` on hex-digit values. -/
theorem hexDigitVal_toHexDigit (n : Nat) (h : n < 16) :
    hexDigitVal (toHexDigit n) = some n := by
  interval_cases n <;> decide

/-- A character other than `+` and `%` passes through the decoder. -/
theorem uq_cons_other (c : Char) (h1 : c ≠ '+') (h2 : c ≠ '%') (l : List Char) :
    unquotePlusChars (c :: l) = c :: unquotePlusChars l := by
  rw [unquotePlusChars.eq_def]
  split <;> simp_all

/-- Unfolding of the decoder on a percent escape. -/
theorem uq_percent (x y : Char) (l : List Char) :
    unquotePlusChars ('%' :: x :: y :: l) =
      match hexDigitVal x, hexDigitVal y with
      | some ha, some hb => Char.ofNat (16 * ha + hb) :: unquotePlusChars l
      | _, _ => '%' :: unquotePlusChars (x :: y :: l) := rfl

/-- Unfolding of the decoder on a plus. -/
theorem uq_plus (l : List Char) :
    unquotePlusChars ('+' :: l) = ' ' :: unquotePlusChars l := rfl

/-- Unreserved characters are distinct from the decoder's specials. -/
theorem safe_not_special (c : Char) (h : isSafeChar c = true) :
    c ≠ '+' ∧ c ≠ '%' ∧ c ≠ ' ' := by
  refine ⟨?_, ?_, ?_⟩ <;> rintro rfl <;> simp [isSafeChar] at h

/-- Decoding the encoding of one ASCII character recovers it. -/
theorem unquote_encodeChar (c : Char) (l : List Char) (h : c.toNat < 128) :
    unquotePlusChars (encodeChar c ++ l) = c :: unquotePlusChars l := by
  by_cases hs : isSafeChar c
  · obtain ⟨h1, h2, _⟩ := safe_not_special c hs
    simp only [encodeChar, hs, if_true, List.cons_append, List.nil_append]
    exact uq_cons_other c h1 h2 l
  · by_cases hsp : c = ' '
    · subst hsp
      simp only [encodeChar, List.cons_append, List.nil_append]
      norm_num
      exact uq_plus l
    · have henc : encodeChar c ++ l =
          '%' :: toHexDigit (c.toNat / 16) :: toHexDigit (c.toNat % 16) :: l := by
        simp [encodeChar, hs, hsp]
      have hd : c.toNat / 16 < 16 := by omega
      have hm : c.toNat % 16 < 16 := by omega
      rw [henc, uq_percent, hexDigitVal_toHexDigit _ hd, hexDigitVal_toHexDigit _ hm]
      show Char.ofNat (16 * (c.toNat / 16) + c.toNat % 16) :: unquotePlusChars l =
        c :: unquotePlusChars l
      have he : 16 * (c.toNat / 16) + c.toNat % 16 = c.toNat := by omega
      rw [he, Char.ofNat_toNat]

/-- Decoding the encoding of an ASCII character list recovers it. -/
theorem unquote_quote_list (l : List Char) (h : ∀ c ∈ l, c.toNat < 128) :
    unquotePlusChars (quotePlusChars l) = l := by
  induction l with
  | nil => rfl
  | cons c rest ih =>
    rw [quotePlusChars]
    rw [unquote_encodeChar c _ (h c (List.mem_cons_self c rest))]
    rw [ih (fun x hx => h x (List.mem_cons_of_mem c hx))]

/-- Claim C9: for every object key over the characters the store
percent/plus encodes (the ASCII range), encoding with the store's
encoding and then decoding with `unquote_plus`, as the Ingestion
Handler does, recovers exactly the original key, and the round trip is
idempotent. -/
theorem encode_decode_roundtrip (s : String) (h : ∀ c ∈ s.data, c.toNat < 128) :
    unquote_plus (quote_plus s) = s ∧
    unquote_plus (quote_plus (unquote_plus (quote_plus s))) = s := by
  have h1 : unquote_plus (quote_plus s) = s := by
    show String.mk (unquotePlusChars (quotePlusChars s.data)) = s
    rw [unquote_quote_list s.data h]
  exact ⟨h1, by rw [h1]; exact h1⟩

/-- Witness for C9 at the spec's own example key. -/
theorem encode_decode_roundtrip_witness :
    unquote_plus (quote_plus "my photo.jpg") = "my photo.jpg" ∧
    unquote_plus (quote_plus (unquote_plus (quote_plus "my photo.jpg"))) = "my photo.jpg" :=
  encode_decode_roundtrip "my photo.jpg" (by decide)

/-- Claim C1: after a successful ingestion of key K (store metadata:
content length, content type, last-modified time), a lookup of the
decoded K returns status 200 with a JSON body whose `imageName` is the
decoded K, whose `size` is the content length as a plain JSON integer,
whose `contentType` and `lastModified` are the reported content type
and the ISO-8601 rendering of the reported time, under a
`Content-Type: application/json` header. -/
theorem ingest_then_lookup (w : World) (b k : String) (len : Nat) (ct : String)
    (t : PyDateTime) (w' : World)
    (hstore : lookupStore w.store b (unquote_plus k) = some ⟨len, ct, t⟩)
    (hread : w.tableReadOk = true)
    (hok : (handle_s3_event w (mkS3Event b k)).1 = Except.ok ({ statusCode := 200 }, w')) :
    (handle_api_gateway_event w' (mkLookupEvent (unquote_plus k))).1 =
      { statusCode := 200,
        body := some (Json.obj [("imageName", Json.str (unquote_plus k)),
                                ("size", Json.num (Int.ofNat len)),
                                ("contentType", Json.str ct),
                                ("lastModified", Json.str t.isoformat)]),
        headers := some [("Content-Type", "application/json")] } := by
  by_cases hr : w.storeReachable
  · by_cases hw : w.tableWriteOk
    · simp only [handle_s3_event, mkS3Event, head_object, hr, if_true, hstore,
        put_item, hw, mkItem] at hok
      simp only [Except.ok.injEq, Prod.mk.injEq] at hok
      obtain ⟨-, hw'⟩ := hok
      subst hw'
      simp [handle_api_gateway_event, mkLookupEvent, lookupAssoc, get_item, hread,
        itemToJson]
    · simp [handle_s3_event, mkS3Event, head_object, hr, hstore, put_item, hw] at hok
  · simp [handle_s3_event, mkS3Event, head_object, hr] at hok

/-- Witness for C1 at the spec's example scenario. -/
theorem ingest_then_lookup_witness :
    (handle_api_gateway_event wEx' (mkLookupEvent (unquote_plus "a%20b.png"))).1 =
      { statusCode := 200,
        body := some (Json.obj [("imageName", Json.str (unquote_plus "a%20b.png")),
                                ("size", Json.num (Int.ofNat 1024)),
                                ("contentType", Json.str "image/png"),
                                ("lastModified", Json.str (PyDateTime.isoformat
                                  metaEx.lastModified))]),
        headers := some [("Content-Type", "application/json")] } :=
  ingest_then_lookup wEx "imgs" "a%20b.png" 1024 "image/png"
    metaEx.lastModified wEx' (by decide) rfl rfl

/-- The trace of an ingestion invocation is a metadata fetch at the
decoded key, possibly followed by the write of the item built from it. -/
theorem s3_trace_shape (w : World) (b k : String) :
    (handle_s3_event w (mkS3Event b k)).2 = [Access.headObject b (unquote_plus k)] ∨
    ∃ meta : S3Meta, (handle_s3_event w (mkS3Event b k)).2 =
      [Access.headObject b (unquote_plus k),
       Access.putItem (mkItem (unquote_plus k) meta)] := by
  simp only [handle_s3_event, mkS3Event]
  cases head_object w b (unquote_plus k) with
  | error e => left; rfl
  | ok meta =>
    cases hp : put_item w (mkItem (unquote_plus k) meta) with
    | error e => right; exact ⟨meta, by simp [hp]⟩
    | ok w' => right; exact ⟨meta, by simp [hp]⟩

/-- Claim C2: for every storage notification with bucket B and key K,
the Ingestion Handler percent/plus-decodes K before use: every metadata
fetch it issues is keyed by the decoded K, and every item it writes
carries the decoded K as its `imageName`. -/
theorem ingestion_decodes_key (w : World) (b k : String) :
    (∀ b' k', Access.headObject b' k' ∈ (handle_s3_event w (mkS3Event b k)).2 →
      k' = unquote_plus k) ∧
    (∀ item, Access.putItem item ∈ (handle_s3_event w (mkS3Event b k)).2 →
      item.imageName = unquote_plus k) := by
  rcases s3_trace_shape w b k with h | ⟨meta, h⟩ <;> rw [h] <;>
    exact ⟨by intro b' k' hm; simp_all, by intro item hm; simp_all [mkItem]⟩

/-- Witness for C2: in the example ingestion both the fetched key and
the written `imageName` are the decoded `a b.png`. -/
theorem ingestion_decodes_key_witness :
    ("a b.png" : String) = unquote_plus "a%20b.png" ∧
    itemEx.imageName = unquote_plus "a%20b.png" :=
  ⟨(ingestion_decodes_key wEx "imgs" "a%20b.png").1 "imgs" "a b.png" (by decide),
   (ingestion_decodes_key wEx "imgs" "a%20b.png").2 itemEx (by decide)⟩

/-- Counterexample to claim C3 as stated: the envelope whose records
field holds an empty list is dispatched to the Ingestion Handler (the
router's result is the ingestion handler's result, an `IndexError`),
although the claim says an envelope without one-or-more records is
dispatched to neither handler, which would produce the 400 response. -/
theorem router_dispatch_counterexample :
    lambda_handler wEx evEmptyRecords = handle_s3_event wEx evEmptyRecords ∧
    (lambda_handler wEx evEmptyRecords).1 = Except.error Err.indexError ∧
    (lambda_handler wEx evEmptyRecords).1 ≠ Except.ok (resp400, wEx) := by
  refine ⟨rfl, rfl, ?_⟩
  intro h
  rw [show (lambda_handler wEx evEmptyRecords).1 = Except.error Err.indexError from rfl] at h
  exact Except.noConfusion h

/-- Claim C3 as amended: the router dispatches to the Ingestion Handler
exactly when the envelope contains the records field — regardless of
how many records the list holds, an empty list included — and the
ingestion handler uses only the first record; otherwise it dispatches
to the Query Handler exactly when an HTTP method field is present;
otherwise neither handler runs and the router answers 400. -/
theorem router_dispatch (w : World) (e : Event) :
    (e.records.isSome → lambda_handler w e = handle_s3_event w e) ∧
    (e.records = none → e.httpMethod.isSome →
      lambda_handler w e =
        (Except.ok ((handle_api_gateway_event w e).1, w), (handle_api_gateway_event w e).2)) ∧
    (e.records = none → e.httpMethod = none →
      lambda_handler w e = (Except.ok (resp400, w), [])) ∧
    (∀ r rs, handle_s3_event w { e with records := some (r :: rs) } =
      handle_s3_event w { e with records := some [r] }) := by
  refine ⟨?_, ?_, ?_, ?_⟩
  · intro h; simp [lambda_handler, h]
  · intro h1 h2; simp [lambda_handler, h1, h2]
  · intro h1 h2; simp [lambda_handler, h1, h2]
  · intro r rs; rfl

/-- Witness for the amended C3 on a records envelope and on an empty
envelope. -/
theorem router_dispatch_witness :
    lambda_handler wEx (mkS3Event "imgs" "a%20b.png") =
      handle_s3_event wEx (mkS3Event "imgs" "a%20b.png") ∧
    lambda_handler wEx ({} : Event) = (Except.ok (resp400, wEx), []) :=
  ⟨(router_dispatch wEx (mkS3Event "imgs" "a%20b.png")).1 rfl,
   (router_dispatch wEx ({} : Event)).2.2.1 rfl rfl⟩

/-- Claim C4: when the metadata fetch or the table write of an
ingestion fails (store unreachable, object missing, or write failure),
the failure propagates as an error of the invocation and is never
converted into any response envelope. -/
theorem ingestion_fail_loud (w : World) (e : Event) (r : S3Record) (rs : List S3Record)
    (hrec : e.records = some (r :: rs))
    (hfail : w.storeReachable = false ∨
      lookupStore w.store r.bucketName (unquote_plus r.objectKey) = none ∨
      w.tableWriteOk = false) :
    (∃ err : Err, (handle_s3_event w e).1 = Except.error err) ∧
    (∀ resp w', (handle_s3_event w e).1 ≠ Except.ok (resp, w')) := by
  have hmain : ∃ err : Err, (handle_s3_event w e).1 = Except.error err := by
    by_cases h1 : w.storeReachable
    · cases h2 : lookupStore w.store r.bucketName (unquote_plus r.objectKey) with
      | none =>
        exact ⟨Err.objectMissing, by simp [handle_s3_event, hrec, head_object, h1, h2]⟩
      | some m =>
        by_cases h3 : w.tableWriteOk
        · simp_all
        · exact ⟨Err.writeError,
            by simp [handle_s3_event, hrec, head_object, h1, h2, put_item, h3]⟩
    · exact ⟨Err.storeUnreachable, by simp [handle_s3_event, hrec, head_object, h1]⟩
  obtain ⟨err, herr⟩ := hmain
  refine ⟨⟨err, herr⟩, ?_⟩
  intro resp w' hok
  rw [herr] at hok
  exact Except.noConfusion hok

/-- Witness for C4 with the store unreachable. -/
theorem ingestion_fail_loud_witness :
    (∃ err : Err, (handle_s3_event wExDown (mkS3Event "imgs" "a%20b.png")).1 = Except.error err) ∧
    (∀ resp w', (handle_s3_event wExDown (mkS3Event "imgs" "a%20b.png")).1 ≠ Except.ok (resp, w')) :=
  ingestion_fail_loud wExDown (mkS3Event "imgs" "a%20b.png")
    { bucketName := "imgs", objectKey := "a%20b.png" } [] rfl (Or.inl rfl)

/-- Claim C5: the Query Handler answers every invocation with a
response (status 200, 404 or 500, never an escaping error), and any
failure — missing path parameters, missing `imageName` parameter, or a
failing table read — becomes status 500 with body
`Internal server error`. -/
theorem query_fail_soft (w : World) (e : Event) :
    (e.pathParameters = none → (handle_api_gateway_event w e).1 = resp500) ∧
    (∀ ps, e.pathParameters = some ps → lookupAssoc ps "imageName" = none →
      (handle_api_gateway_event w e).1 = resp500) ∧
    (∀ ps k, e.pathParameters = some ps → lookupAssoc ps "imageName" = some k →
      w.tableReadOk = false → (handle_api_gateway_event w e).1 = resp500) ∧
    ((handle_api_gateway_event w e).1.statusCode = 200 ∨
     (handle_api_gateway_event w e).1.statusCode = 404 ∨
     (handle_api_gateway_event w e).1.statusCode = 500) := by
  refine ⟨?_, ?_, ?_, ?_⟩
  · intro h; simp [handle_api_gateway_event, h]
  · intro ps h1 h2; simp [handle_api_gateway_event, h1, h2]
  · intro ps k h1 h2 h3; simp [handle_api_gateway_event, h1, h2, get_item, h3]
  · rcases hp : e.pathParameters with _ | ps
    · simp [handle_api_gateway_event, hp, resp500]
    · rcases hl : lookupAssoc ps "imageName" with _ | k
      · simp [handle_api_gateway_event, hp, hl, resp500]
      · rcases hg : get_item w k with err | item?
        · simp [handle_api_gateway_event, hp, hl, hg, resp500]
        · rcases item? with _ | item
          · simp [handle_api_gateway_event, hp, hl, hg]
          · simp [handle_api_gateway_event, hp, hl, hg]

/-- Witness for C5: missing parameters, missing `imageName`, and a
failing table read each produce the 500 response. -/
theorem query_fail_soft_witness :
    (handle_api_gateway_event wEx evNoParams).1 = resp500 ∧
    (handle_api_gateway_event wEx evEmptyParams).1 = resp500 ∧
    (handle_api_gateway_event wExReadDown (mkLookupEvent "a b.png")).1 = resp500 :=
  ⟨(query_fail_soft wEx evNoParams).1 rfl,
   (query_fail_soft wEx evEmptyParams).2.1 [] rfl rfl,
   (query_fail_soft wExReadDown (mkLookupEvent "a b.png")).2.2.1 [("imageName", "a b.png")]
     "a b.png" rfl rfl rfl⟩

/-- Claim C6: a lookup of a key for which the table holds no record
returns status 404 with body `Image not found`. -/
theorem lookup_not_found (w : World) (k : String)
    (hread : w.tableReadOk = true) (habs : lookupAssoc w.table k = none) :
    (handle_api_gateway_event w (mkLookupEvent k)).1 =
      { statusCode := 404, body := some (Json.obj [("error", Json.str "Image not found")]) } := by
  simp [handle_api_gateway_event, mkLookupEvent, lookupAssoc, get_item, hread, habs]

/-- Witness for C6 on a never-ingested key. -/
theorem lookup_not_found_witness :
    (handle_api_gateway_event wEx (mkLookupEvent "missing.png")).1 =
      { statusCode := 404, body := some (Json.obj [("error", Json.str "Image not found")]) } :=
  lookup_not_found wEx "missing.png" rfl rfl

/-- A successful ingestion of key K yields exactly the input world with
the item built from the fetched metadata pushed onto the table under
the decoded key. -/
theorem handle_s3_event_ok_world (w : World) (b k : String) (meta : S3Meta) (w' : World)
    (hstore : lookupStore w.store b (unquote_plus k) = some meta)
    (hok : (handle_s3_event w (mkS3Event b k)).1 = Except.ok ({ statusCode := 200 }, w')) :
    w' = { w with table := (unquote_plus k, mkItem (unquote_plus k) meta) :: w.table } := by
  cases w with
  | mk store reach table wok rok =>
    by_cases hr : reach = true
    · by_cases hw : wok = true
      · subst hr
        subst hw
        simp only [handle_s3_event, mkS3Event, head_object, if_true, hstore,
          put_item] at hok
        simp only [Except.ok.injEq, Prod.mk.injEq] at hok
        rw [← hok.2]
        simp [mkItem]
      · simp [handle_s3_event, mkS3Event, head_object, hr, hstore, put_item, hw] at hok
    · simp [handle_s3_event, mkS3Event, head_object, hr] at hok

/-- Claim C7: ingesting the same key twice with different metadata
makes the second write fully replace the first: a subsequent lookup
returns exactly the values of the second ingestion's metadata. -/
theorem last_write_wins (w : World) (b k : String) (m1 m2 : S3Meta)
    (s2 : List ((String × String) × S3Meta)) (w1 w2 : World)
    (_hm : m1 ≠ m2)
    (hs1 : lookupStore w.store b (unquote_plus k) = some m1)
    (hok1 : (handle_s3_event w (mkS3Event b k)).1 = Except.ok ({ statusCode := 200 }, w1))
    (hs2 : lookupStore s2 b (unquote_plus k) = some m2)
    (hok2 : (handle_s3_event { w1 with store := s2 } (mkS3Event b k)).1 =
      Except.ok ({ statusCode := 200 }, w2))
    (hread : w.tableReadOk = true) :
    (handle_api_gateway_event w2 (mkLookupEvent (unquote_plus k))).1 =
      { statusCode := 200,
        body := some (Json.obj [("imageName", Json.str (unquote_plus k)),
                                ("size", Json.num (Int.ofNat m2.contentLength)),
                                ("contentType", Json.str m2.contentType),
                                ("lastModified", Json.str m2.lastModified.isoformat)]),
        headers := some [("Content-Type", "application/json")] } := by
  have h1 := handle_s3_event_ok_world w b k m1 w1 hs1 hok1
  have h2 := handle_s3_event_ok_world { w1 with store := s2 } b k m2 w2 (by simpa using hs2) hok2
  subst h1
  subst h2
  simp [handle_api_gateway_event, mkLookupEvent, lookupAssoc, get_item, hread, itemToJson, mkItem]

/-- Witness for C7: the example key ingested at 1024 bytes `image/png`
and again at 2048 bytes `image/jpeg`; the lookup shows only the second. -/
theorem last_write_wins_witness :
    (handle_api_gateway_event wEx2 (mkLookupEvent (unquote_plus "a%20b.png"))).1 =
      { statusCode := 200,
        body := some (Json.obj [("imageName", Json.str (unquote_plus "a%20b.png")),
                                ("size", Json.num (Int.ofNat metaEx2.contentLength)),
                                ("contentType", Json.str metaEx2.contentType),
                                ("lastModified", Json.str metaEx2.lastModified.isoformat)]),
        headers := some [("Content-Type", "application/json")] } :=
  last_write_wins wEx "imgs" "a%20b.png" metaEx metaEx2 storeEx2 wEx' wEx2
    (by decide) rfl rfl rfl rfl rfl

/-- Claim C8: an envelope with neither a records field nor an HTTP
method field makes the router answer 400 with the unknown-event-source
body, leave the world unchanged, and perform no store or table access
(empty access trace). -/
theorem router_unknown_source (w : World) (e : Event)
    (h1 : e.records = none) (h2 : e.httpMethod = none) :
    lambda_handler w e = (Except.ok (resp400, w), []) := by
  simp [lambda_handler, h1, h2]

/-- Witness for C8 on the empty envelope. -/
theorem router_unknown_source_witness :
    lambda_handler wEx ({} : Event) = (Except.ok (resp400, wEx), []) :=
  router_unknown_source wEx ({} : Event) rfl rfl

/-- The ingestion handler never reads the table: no `getItem` access
ever appears in its trace. -/
theorem s3_no_getItem (w : World) (e : Event) (k : String) :
    Access.getItem k ∉ (handle_s3_event w e).2 := by
  rcases he : e.records with _ | rs
  · simp [handle_s3_event, he]
  · cases rs with
    | nil => simp [handle_s3_event, he]
    | cons r rest =>
      simp only [handle_s3_event, he]
      cases head_object w r.bucketName (unquote_plus r.objectKey) with
      | error err => simp
      | ok meta =>
        cases hp : put_item w (mkItem (unquote_plus r.objectKey) meta) with
        | error err => simp [hp]
        | ok w' => simp [hp]

/-- Claim C10: an envelope carrying both a records field and an HTTP
method field is dispatched to the Ingestion Handler, never to the Query
Handler: the records check takes precedence, and no table read ever
occurs in such an invocation. -/
theorem router_records_precedence (w : World) (e : Event) (rs : List S3Record) (m : String)
    (h1 : e.records = some rs) (_h2 : e.httpMethod = some m) :
    lambda_handler w e = handle_s3_event w e ∧
    ∀ k, Access.getItem k ∉ (lambda_handler w e).2 := by
  have hd : lambda_handler w e = handle_s3_event w e := by simp [lambda_handler, h1]
  refine ⟨hd, ?_⟩
  intro k
  rw [hd]
  exact s3_no_getItem w e k

/-- Witness for C10 on an envelope with both fields. -/
theorem router_records_precedence_witness :
    lambda_handler wEx evBoth = handle_s3_event wEx evBoth ∧
    Access.getItem "a b.png" ∉ (lambda_handler wEx evBoth).2 :=
  ⟨(router_records_precedence wEx evBoth _ "GET" rfl rfl).1,
   (router_records_precedence wEx evBoth _ "GET" rfl rfl).2 "a b.png"⟩

end AppPy
